import Mathlib

/-!
Verification of the Yourway route-optimizer core against its specification.

The Python sources are shallowly embedded in Lean:
* Python floats become exact rationals (`ℚ`); the decimal literals appearing in
  the source (`1.60934`, `0.4`, `0.05`, ...) are exact in this model.
* Python `int()` becomes `pyInt` (truncation toward zero), Python's two-digit
  `round(x, 2)` becomes `pyRound2` (round half to even).
* Dynamically typed provider payload scalars become `PyVal` (a number or a
  string); arithmetic on them is fallible, exactly as in Python where a string
  reaching an arithmetic operation raises `TypeError`.
* A Python function body that can raise becomes a function into
  `Except String α`; a `try/except` wrapper becomes a `match` on that value.
-/

/-- Python `int()` applied to a numeric value: truncation toward zero. -/
def pyInt (q : ℚ) : ℤ :=
  if q < 0 then -(Int.floor (-q)) else Int.floor q

/-- Round a rational to the nearest integer, ties to even: the rounding mode of
Python's builtin `round`. -/
def roundHalfEven (q : ℚ) : ℤ :=
  let f := Int.floor q
  let frac := q - f
  if frac < 1/2 then f
  else if 1/2 < frac then f + 1
  else if 2 ∣ f then f else f + 1

/-- Python `round(x, 2)` on an exact decimal value. -/
def pyRound2 (q : ℚ) : ℚ :=
  (roundHalfEven (q * 100) : ℚ) / 100

/-- A dynamically typed scalar coming out of a provider's JSON payload: either
a number or a string.  Downstream arithmetic on a string raises. -/
inductive PyVal where
  | num (val : ℚ)
  | str (val : String)
deriving DecidableEq

/-- Python division `v / d` where `v` is a dynamically typed payload value and
`d` a number: raises `TypeError` when `v` is a string. -/
def pyDivNum : PyVal → ℚ → Except String ℚ
  | .num q, d => .ok (q / d)
  | .str _, _ => .error "TypeError: unsupported operand type(s) for /"

/-- Using a dynamically typed payload value in numeric comparisons/arithmetic
(as `_score_routes` does with `duration_seconds`): raises `TypeError` when the
value is a string. -/
def pyToNum : PyVal → Except String ℚ
  | .num q => .ok q
  | .str _ => .error "TypeError: unsupported operand type(s)"

/-- Map a fallible function over a list, stopping at the first raised
exception (the behaviour of a Python `for` loop over the list). -/
def mapE (f : α → Except String β) : List α → Except String (List β)
  | [] => .ok []
  | x :: xs =>
    match f x with
    | .error e => .error e
    | .ok y =>
      match mapE f xs with
      | .error e => .error e
      | .ok ys => .ok (y :: ys)

namespace EmissionsCalculator

/-! Embedding of `fedex_route_optimizer/emissions/emissions_calculator.py`
(`EmissionsCalculator`).  The instance state `self.emission_factors` is passed
explicitly as a `List (String × VehicleFactors)` association table (the loaded
configuration); `default_emission_factors` is the in-code default table used
when no `emission_factors.json` config file exists (none does in this
repository). -/

/-- Per-vehicle emission factors, one table row of `emission_factors`. -/
structure VehicleFactors where
  base_emission_rate : ℚ
  fuel_efficiency : ℚ
  payload_factor : ℚ
deriving DecidableEq

/-- The default emission-factor table from `_load_emission_factors`. -/
def default_emission_factors : List (String × VehicleFactors) :=
  [("Delivery Van", ⟨275, 12, 0.05⟩),
   ("Box Truck", ⟨450, 8, 0.08⟩),
   ("Semi-Truck", ⟨900, 6, 0.1⟩),
   ("Electric Vehicle", ⟨50, 100, 0.03⟩)]

/-- The vehicle-type key actually used for the table lookup: an unknown
vehicle type is replaced by `"Delivery Van"` (`calculate_emissions`, lines
83-85). -/
def resolve_vehicle_type (emission_factors : List (String × VehicleFactors))
    (vehicle_type : String) : String :=
  if (emission_factors.lookup vehicle_type).isSome then vehicle_type else "Delivery Van"

/-- The body of `EmissionsCalculator.calculate_emissions` inside its `try`
block.  The lookup can raise (`KeyError`) when even the `"Delivery Van"`
fallback key is absent from a loaded configuration table. -/
def calculate_emissions_core (emission_factors : List (String × VehicleFactors))
    (distance_miles : ℚ) (vehicle_type : String) (avg_speed_mph gradient payload_kg
    traffic_congestion : ℚ) (weather_conditions : String) : Except String ℚ :=
  match emission_factors.lookup (resolve_vehicle_type emission_factors vehicle_type) with
  | none => .error "KeyError"
  | some vehicle_factors =>
    let distance_km := distance_miles * 1.60934
    let base_emissions := distance_km * vehicle_factors.base_emission_rate
    let speed_factor : ℚ :=
      if avg_speed_mph < 30 then 1.2 else if avg_speed_mph > 75 then 1.15 else 1.0
    let gradient_factor : ℚ := 1.0 + |gradient| * 0.02
    let payload_factor : ℚ := 1.0 + payload_kg / 100 * vehicle_factors.payload_factor
    let traffic_factor : ℚ := 1.0 + traffic_congestion * 0.3
    let weather_factor : ℚ :=
      if weather_conditions.toLower = "rain" then 1.05
      else if weather_conditions.toLower = "snow" then 1.1
      else if weather_conditions.toLower = "strong wind" then 1.08
      else 1.0
    let total_emissions_g := base_emissions * speed_factor * gradient_factor *
      payload_factor * traffic_factor * weather_factor
    .ok (total_emissions_g / 1000)

/-- `EmissionsCalculator.calculate_emissions`: the `try/except` wrapper around
the core; any exception yields the fallback estimate `distance_miles * 0.4`. -/
def calculate_emissions (emission_factors : List (String × VehicleFactors))
    (distance_miles : ℚ) (vehicle_type : String) (avg_speed_mph gradient payload_kg
    traffic_congestion : ℚ) (weather_conditions : String) : ℚ :=
  match calculate_emissions_core emission_factors distance_miles vehicle_type
      avg_speed_mph gradient payload_kg traffic_congestion weather_conditions with
  | .ok v => v
  | .error _ => distance_miles * 0.4

end EmissionsCalculator

namespace Prototype

/-! Embedding of `src/prototype.py` (`calculate_emissions`), the profile-based
emissions estimator.  It consults `config.settings.get_emission_factor`, which
raises `RuntimeError` when no configuration has been loaded and otherwise
returns `emission_factors.get(fuel_type, 0.0)`; the settings module state is
passed explicitly (`none` = configuration not loaded). -/

/-- A vehicle configuration dictionary; each field models the presence or
absence of the corresponding key. -/
structure VehicleConfig where
  fuel_efficiency_l_per_100km : Option ℚ
  energy_efficiency_kwh_per_100km : Option ℚ
  fuel_type : Option String
deriving DecidableEq

/-- The `settings` module state: `none` when `load_config` has not run,
otherwise the `emission_factors` table. -/
abbrev Settings := Option (List (String × ℚ))

/-- `config.settings.get_emission_factor`. -/
def get_emission_factor (s : Settings) (fuel_type : String) : Except String ℚ :=
  match s with
  | none => .error "Configuration not loaded. Call load_config() first."
  | some emission_factors => .ok ((emission_factors.lookup fuel_type).getD 0)

/-- The body of `prototype.calculate_emissions` inside its `try` block. -/
def calculate_emissions_core (s : Settings) (distance_meters : ℚ)
    (vehicle_config : VehicleConfig) : Except String ℚ :=
  let distance_km := distance_meters / 1000
  match vehicle_config.fuel_efficiency_l_per_100km with
  | some eff =>
    let liters_used := distance_km * eff / 100
    let fuel_type := vehicle_config.fuel_type.getD "diesel"
    match get_emission_factor s fuel_type with
    | .error e => .error e
    | .ok emission_factor => .ok (liters_used * emission_factor)
  | none =>
    match vehicle_config.energy_efficiency_kwh_per_100km with
    | some eff =>
      let kwh_used := distance_km * eff / 100
      match get_emission_factor s "electric" with
      | .error e => .error e
      | .ok emission_factor => .ok (kwh_used * emission_factor)
    | none => .ok 0

/-- `prototype.calculate_emissions`: the `try/except` wrapper; any exception
yields `0.0`. -/
def calculate_emissions (s : Settings) (distance_meters : ℚ)
    (vehicle_config : VehicleConfig) : ℚ :=
  match calculate_emissions_core s distance_meters vehicle_config with
  | .ok v => v
  | .error _ => 0

end Prototype

namespace RouteOptimizer

/-! Embedding of `fedex_route_optimizer/route_engine/route_optimizer.py`
(`RouteOptimizer`).  Coordinates are pairs of rationals.  Python strings built
by the cache-key f-string are modelled as `List Char`; `floatStr` renders a
rational the way Python `str` renders the corresponding decimal float value
(sign, integer digits, `'.'`, fraction digits — exact for the finite-decimal
values that occur as coordinates). -/

/-- A coordinate pair `(latitude, longitude)`. -/
abbrev Point := ℚ × ℚ

/-- Decimal digits of the fractional part of a rational in `[0, 1)`, with a
fuel bound (float values always terminate well inside the bound). -/
def fracDigits : ℚ → Nat → List Char
  | _, 0 => []
  | q, n + 1 =>
    if q = 0 then []
    else
      let q10 := q * 10
      Nat.digitChar (Int.floor q10).toNat :: fracDigits (q10 - Int.floor q10) n

/-- Python `str` of a float holding a finite-decimal value: optional minus
sign, integer part, a dot, fraction digits (at least one, `0` when the value
is integral). -/
def floatStr (q : ℚ) : List Char :=
  let a := |q|
  let ip := (Int.floor a).toNat
  let fr := fracDigits (a - Int.floor a) 32
  (if q < 0 then ['-'] else []) ++ (toString ip).data ++ '.' :: (if fr = [] then ['0'] else fr)

/-- Python `sep.join(tokens)` for a one-character separator. -/
def joinSep (sep : Char) : List (List Char) → List Char
  | [] => []
  | [t] => t
  | t :: u :: rest => t ++ sep :: joinSep sep (u :: rest)

/-- The `f"{s[0]}:{s[1]}"` fragment for one intermediate stop. -/
def stop_str (s : Point) : List Char :=
  floatStr s.1 ++ ':' :: floatStr s.2

/-- `RouteOptimizer._generate_cache_key`: the key f-string
`"{o0}:{o1}-{d0}:{d1}-{stops_str}-{vehicle_type}-{criteria}"` where
`stops_str` is the `"-"`-join of the stop fragments (empty for no stops). -/
def generate_cache_key (origin destination : Point) (stops : List Point)
    (vehicle_type criteria : String) : List Char :=
  let stops_str := if stops = [] then [] else joinSep '-' (stops.map stop_str)
  floatStr origin.1 ++ ':' :: floatStr origin.2 ++
    '-' :: (floatStr destination.1 ++ ':' :: floatStr destination.2) ++
    '-' :: stops_str ++
    '-' :: vehicle_type.data ++
    '-' :: criteria.data

/-- Result of `tomtom.get_traffic_flow` / the demo and error dictionaries of
`_get_traffic_data`: only the `status` key is consulted downstream. -/
structure TrafficResponse where
  status : String
deriving DecidableEq

/-- The `{"aqi": ...}` payload of an AQICN response (`aqi` key possibly
absent). -/
structure AqiData where
  aqi : Option ℤ
deriving DecidableEq

/-- Result of `aqicn.get_air_quality` / the demo and error dictionaries of
`_get_weather_data`. -/
structure WeatherResponse where
  status : String
  data : Option AqiData
deriving DecidableEq

/-- Output of `_summarize_traffic`. -/
structure TrafficSummary where
  status : String
  description : String
  average_flow : Option String
deriving DecidableEq

/-- Output of `_summarize_weather`. -/
structure WeatherSummary where
  status : String
  description : String
  aqi : Option ℤ
deriving DecidableEq

/-- The provider-shaped route record built by the `_get_*_routes` wrappers and
`_create_dummy_routes`: summary fields are dynamically typed payload scalars,
absent keys are `none` (the `raw` payload, kept only for diagnostics, is not
modelled).  `lengthInMeters`, `travelTimeInSeconds`, `trafficDelayInSeconds`
are the summary dictionary entries. -/
structure RawRoute where
  provider : String
  route_id : String
  lengthInMeters : Option PyVal
  travelTimeInSeconds : Option PyVal
  trafficDelayInSeconds : Option PyVal
  geometry : List Point
deriving DecidableEq

/-- Output of `_normalize_routes`: the common route schema. -/
structure NormalizedRoute where
  id : String
  provider : String
  distance_meters : PyVal
  duration_seconds : PyVal
  traffic_delay_seconds : PyVal
  geometry : List Point
deriving DecidableEq

/-- A normalized route after `_calculate_emissions` attached
`emissions_kg_co2`. -/
structure EmissionRoute where
  id : String
  provider : String
  distance_meters : PyVal
  duration_seconds : PyVal
  traffic_delay_seconds : PyVal
  geometry : List Point
  emissions_kg_co2 : ℚ
deriving DecidableEq

/-- A route after `_score_routes` attached `score` and `recommendation`;
`duration_seconds` is numeric here because scoring performed arithmetic on
it. -/
structure ScoredRoute where
  id : String
  provider : String
  distance_meters : PyVal
  duration_seconds : ℚ
  traffic_delay_seconds : PyVal
  geometry : List Point
  emissions_kg_co2 : ℚ
  score : ℤ
  recommendation : String
deriving DecidableEq

/-- Echo of the request inside a successful result. -/
structure Query where
  origin : Point
  destination : Point
  stops : List Point
  vehicle_type : String
  optimization_criteria : String
deriving DecidableEq

/-- The `metadata` dictionary of a result (the wall-clock `generated_at`
timestamp is not modelled). -/
structure Metadata where
  traffic_conditions : Option TrafficSummary
  weather_conditions : Option WeatherSummary
  route_count : Option Nat
  error_details : Option String
deriving DecidableEq

/-- The dictionary returned by `optimize_route`. -/
structure RouteResult where
  status : String
  message : Option String
  query : Option Query
  routes : List ScoredRoute
  metadata : Metadata
deriving DecidableEq

/-- One entry of `self.cache`. -/
structure CacheEntry where
  data : RouteResult
  timestamp : ℚ
deriving DecidableEq

/-- The in-memory cache `self.cache`; later writes shadow earlier ones, as in
a Python dict. -/
abbrev Cache := List (List Char × CacheEntry)

/-- `self.cache_ttl` (seconds). -/
def cache_ttl : ℚ := 600

/-- `RouteOptimizer._get_from_cache` at clock reading `now`
(`time.time()`). -/
def get_from_cache (cache : Cache) (now : ℚ) (key : List Char) : Option RouteResult :=
  match cache.lookup key with
  | some entry => if now - entry.timestamp < cache_ttl then some entry.data else none
  | none => none

/-- `RouteOptimizer._add_to_cache` at clock reading `now`. -/
def add_to_cache (cache : Cache) (now : ℚ) (key : List Char) (data : RouteResult) : Cache :=
  (key, ⟨data, now⟩) :: cache

end RouteOptimizer

namespace RouteOptimizer

/-- Minimum of a nonempty list of rationals (Python `min`); `0` is never used
because callers pass nonempty lists. -/
def list_min : List ℚ → ℚ
  | [] => 0
  | x :: xs => xs.foldl min x

/-- Maximum of a nonempty list of rationals (Python `max`). -/
def list_max : List ℚ → ℚ
  | [] => 0
  | x :: xs => xs.foldl max x

/-- `RouteOptimizer._get_route_area`: padded bounding box corners (SW, SE, NE,
NW) of origin, destination and stops. -/
def get_route_area (origin destination : Point) (stops : List Point) : List Point :=
  let points := origin :: destination :: stops
  let padding : ℚ := 0.05
  let min_lat := list_min (points.map (·.1)) - padding
  let max_lat := list_max (points.map (·.1)) + padding
  let min_lng := list_min (points.map (·.2)) - padding
  let max_lng := list_max (points.map (·.2)) + padding
  [(min_lat, min_lng), (min_lat, max_lng), (max_lat, max_lng), (max_lat, min_lng)]

/-- A route record as delivered by one provider client, after the wrapper's
payload extraction (polyline decoding and per-provider summary-field reshaping
are wire-format concerns delegated to the client function; a client whose call
raises is modelled by an `.error` result). -/
structure ProviderRouteData where
  lengthInMeters : Option PyVal
  travelTimeInSeconds : Option PyVal
  trafficDelayInSeconds : Option PyVal
  geometry : List Point
deriving DecidableEq

/-- The TomTom client: traffic-aware routing plus traffic flow. -/
structure TomTomClient where
  get_route : Point → Point → List Point → String → String → Except String (List ProviderRouteData)
  get_traffic_flow : List Point → Except String TrafficResponse

/-- The Google Maps client. -/
structure GoogleClient where
  get_directions : Point → Point → List Point → String → Except String (List ProviderRouteData)

/-- The OSRM client. -/
structure OsrmClient where
  get_route : Point → Point → List Point → Except String (List ProviderRouteData)

/-- The AQICN client. -/
structure AqicnClient where
  get_air_quality : Point → Except String WeatherResponse

/-- `self.api_clients`: each provider is optional (`none` = key absent from
the dictionary). -/
structure ApiClients where
  tomtom : Option TomTomClient
  google_maps : Option GoogleClient
  osrm : Option OsrmClient
  aqicn : Option AqicnClient

/-- `RouteOptimizer._get_traffic_data`: demo dictionary when TomTom is not
configured, error dictionary when the call raises. -/
def get_traffic_data (clients : ApiClients) (area : List Point) : TrafficResponse :=
  match clients.tomtom with
  | none => { status := "demo" }
  | some c =>
    match c.get_traffic_flow area with
    | .ok r => r
    | .error _ => { status := "error" }

/-- `RouteOptimizer._get_weather_data`: demo dictionary (aqi 45) when AQICN is
not configured, error dictionary when the call raises; the query point is the
centre of the area. -/
def get_weather_data (clients : ApiClients) (area : List Point) : WeatherResponse :=
  match clients.aqicn with
  | none => { status := "demo", data := some { aqi := some 45 } }
  | some c =>
    let center_lat := (area.map (·.1)).sum / (area.length : ℚ)
    let center_lng := (area.map (·.2)).sum / (area.length : ℚ)
    match c.get_air_quality (center_lat, center_lng) with
    | .ok r => r
    | .error _ => { status := "error", data := none }

/-- `RouteOptimizer._summarize_traffic`. -/
def summarize_traffic (traffic_data : TrafficResponse) : TrafficSummary :=
  if traffic_data.status = "error" then
    { status := "unknown", description := "Traffic data unavailable", average_flow := none }
  else if traffic_data.status = "demo" then
    { status := "normal", description := "Normal traffic conditions (demo mode)",
      average_flow := none }
  else
    { status := "normal", description := "Normal traffic conditions",
      average_flow := some "moderate" }

/-- `RouteOptimizer._summarize_weather`: air-quality buckets with strict `<`
thresholds at 50 and 100. -/
def summarize_weather (weather_data : WeatherResponse) : WeatherSummary :=
  if weather_data.status = "error" then
    { status := "unknown", description := "Weather data unavailable", aqi := none }
  else
    match weather_data.data with
    | some d =>
      let aqi := d.aqi.getD 45
      if aqi < 50 then
        { status := "good", description := "Good air quality, no impact on transportation",
          aqi := some aqi }
      else if aqi < 100 then
        { status := "moderate", description := "Moderate air quality, minimal impact",
          aqi := some aqi }
      else
        { status := "poor", description := "Poor air quality, may affect visibility",
          aqi := some aqi }
    | none =>
      { status := "good", description := "Good weather conditions (demo mode)", aqi := some 45 }

/-- `RouteOptimizer._get_tomtom_routes`: empty when the client is absent or
its call raises; otherwise the provider routes tagged `tomtom` / `tt-i`. -/
def get_tomtom_routes (clients : ApiClients) (origin destination : Point)
    (stops : List Point) (vehicle_type departure_time : String) : List RawRoute :=
  match clients.tomtom with
  | none => []
  | some c =>
    match c.get_route origin destination stops vehicle_type departure_time with
    | .error _ => []
    | .ok rs => rs.enum.map fun p =>
        { provider := "tomtom", route_id := "tt-" ++ toString p.1,
          lengthInMeters := p.2.lengthInMeters,
          travelTimeInSeconds := p.2.travelTimeInSeconds,
          trafficDelayInSeconds := p.2.trafficDelayInSeconds,
          geometry := p.2.geometry }

/-- `RouteOptimizer._get_google_routes`: as for TomTom, tagged `google` /
`gm-i`. -/
def get_google_routes (clients : ApiClients) (origin destination : Point)
    (stops : List Point) (departure_time : String) : List RawRoute :=
  match clients.google_maps with
  | none => []
  | some c =>
    match c.get_directions origin destination stops departure_time with
    | .error _ => []
    | .ok rs => rs.enum.map fun p =>
        { provider := "google", route_id := "gm-" ++ toString p.1,
          lengthInMeters := p.2.lengthInMeters,
          travelTimeInSeconds := p.2.travelTimeInSeconds,
          trafficDelayInSeconds := p.2.trafficDelayInSeconds,
          geometry := p.2.geometry }

/-- `RouteOptimizer._get_osrm_routes`: as above, tagged `osrm` / `osrm-i`; the
wrapper itself sets the traffic delay to `0` (OSRM provides none). -/
def get_osrm_routes (clients : ApiClients) (origin destination : Point)
    (stops : List Point) : List RawRoute :=
  match clients.osrm with
  | none => []
  | some c =>
    match c.get_route origin destination stops with
    | .error _ => []
    | .ok rs => rs.enum.map fun p =>
        { provider := "osrm", route_id := "osrm-" ++ toString p.1,
          lengthInMeters := p.2.lengthInMeters,
          travelTimeInSeconds := p.2.travelTimeInSeconds,
          trafficDelayInSeconds := some (.num 0),
          geometry := p.2.geometry }

/-- The three fixed dummy-route variants of `_create_dummy_routes`:
name, distance factor, time factor. -/
def route_variants : List (String × ℚ × ℚ) :=
  [("Fastest Route", 1.0, 1.0),
   ("Shortest Route", 0.95, 1.1),
   ("Eco-Friendly Route", 1.05, 1.05)]

/-- `RouteOptimizer._create_dummy_routes`.  The haversine computation uses
transcendental functions, which have no executable exact embedding; it is
abstracted as the parameter `hav`, applied to origin and destination exactly
where the source computes `haversine_distance(...)` (in meters).  `stops` is
accepted and ignored, as in the source. -/
def create_dummy_routes (hav : Point → Point → ℚ) (origin destination : Point)
    (_stops : List Point) : List RawRoute :=
  let base_distance := hav origin destination
  route_variants.enum.map fun p =>
    let distance : ℤ := pyInt (base_distance * p.2.2.1)
    let duration : ℤ := pyInt ((distance : ℚ) / 1000 * 3600 / 40 * p.2.2.2)
    { provider := "demo", route_id := "demo-" ++ toString p.1,
      lengthInMeters := some (.num (distance : ℚ)),
      travelTimeInSeconds := some (.num (duration : ℚ)),
      trafficDelayInSeconds := some (.num ((max 0 (pyInt ((duration : ℚ) * 0.1)) : ℤ) : ℚ)),
      geometry := [origin, destination] }

/-- `RouteOptimizer._normalize_routes`: flatten the per-provider lists and map
to the common schema, defaulting absent summary fields to `0`. -/
def normalize_routes (route_lists : List (List RawRoute)) : List NormalizedRoute :=
  route_lists.flatten.map fun r =>
    { id := r.route_id, provider := r.provider,
      distance_meters := r.lengthInMeters.getD (.num 0),
      duration_seconds := r.travelTimeInSeconds.getD (.num 0),
      traffic_delay_seconds := r.trafficDelayInSeconds.getD (.num 0),
      geometry := r.geometry }

/-- The per-km emission rate of the placeholder `_calculate_emissions`. -/
def vehicle_rate (vehicle_type : String) : ℚ :=
  if vehicle_type = "delivery_van" then 0.2
  else if vehicle_type = "cargo_truck" then 0.5
  else if vehicle_type = "electric_van" then 0.05
  else 0.2

/-- `RouteOptimizer._calculate_emissions`: the division
`route["distance_meters"] / 1000` raises when the payload value is a string;
the result is rounded to two decimals. -/
def calculate_emissions (routes : List NormalizedRoute) (vehicle_type : String) :
    Except String (List EmissionRoute) :=
  mapE (fun r =>
    match pyDivNum r.distance_meters 1000 with
    | .error e => .error e
    | .ok distance_km =>
      .ok { id := r.id, provider := r.provider, distance_meters := r.distance_meters,
            duration_seconds := r.duration_seconds,
            traffic_delay_seconds := r.traffic_delay_seconds,
            geometry := r.geometry,
            emissions_kg_co2 := pyRound2 (distance_km * vehicle_rate vehicle_type) })
    routes

end RouteOptimizer

namespace RouteOptimizer

/-- The `(time_weight, emissions_weight)` pair chosen by `_score_routes` from
the optimization criteria. -/
def score_weights (criteria : String) : ℚ × ℚ :=
  if criteria = "time" then (0.8, 0.2)
  else if criteria = "emissions" then (0.2, 0.8)
  else (0.5, 0.5)

/-- The recommendation tier attached by `_score_routes`. -/
def recommendation_label (score : ℤ) : String :=
  if score ≥ 80 then "Highly Recommended"
  else if score ≥ 60 then "Recommended"
  else "Alternative Option"

/-- The score assignment of the `_score_routes` loop for one route, given the
weights and the normalization statistics of the candidate set; `dur` is the
route's (numeric) duration. -/
def score_one (time_weight emissions_weight min_time time_range min_emissions
    emissions_range : ℚ) (r : EmissionRoute) (dur : ℚ) : ScoredRoute :=
  let time_score : ℚ := if time_range > 0 then 1 - (dur - min_time) / time_range else 1
  let emissions_score : ℚ :=
    if emissions_range > 0 then 1 - (r.emissions_kg_co2 - min_emissions) / emissions_range else 1
  let score := pyInt ((time_weight * time_score + emissions_weight * emissions_score) * 100)
  { id := r.id, provider := r.provider, distance_meters := r.distance_meters,
    duration_seconds := dur, traffic_delay_seconds := r.traffic_delay_seconds,
    geometry := r.geometry, emissions_kg_co2 := r.emissions_kg_co2,
    score := score, recommendation := recommendation_label score }

/-- The scored (not yet sorted) candidate list of `_score_routes`, in input
order; `durs` is the list of numeric duration values of `routes`. -/
def scored_candidates (routes : List EmissionRoute) (criteria : String) (durs : List ℚ) :
    List ScoredRoute :=
  let w := score_weights criteria
  let min_time := list_min durs
  let max_time := list_max durs
  let time_range := max 1 (max_time - min_time)
  let emissions := routes.map (·.emissions_kg_co2)
  let min_emissions := list_min emissions
  let max_emissions := list_max emissions
  let emissions_range := max 0.1 (max_emissions - min_emissions)
  (routes.zip durs).map fun p =>
    score_one w.1 w.2 min_time time_range min_emissions emissions_range p.1 p.2

/-- Descending order on scores; `sorted(..., key=score, reverse=True)` keeps
`a` before `b` exactly when `b.score ≤ a.score` or they tie. -/
def score_ge (a b : ScoredRoute) : Prop := b.score ≤ a.score

instance : DecidableRel score_ge := fun a b => inferInstanceAs (Decidable (b.score ≤ a.score))

instance : IsTotal ScoredRoute score_ge := ⟨fun a b => le_total b.score a.score⟩

instance : IsTrans ScoredRoute score_ge := ⟨fun _ _ _ h1 h2 => le_trans h2 h1⟩

/-- `RouteOptimizer._score_routes`.  CPython's `sorted` is a stable sort;
with `key=lambda r: r["score"], reverse=True` its output is the unique
score-descending permutation in which ties keep their input order, which is
exactly what insertion sort under `score_ge` produces.  Arithmetic on a
non-numeric duration raises, as in Python. -/
def score_routes (routes : List EmissionRoute) (criteria : String) :
    Except String (List ScoredRoute) :=
  if routes = [] then .ok []
  else
    match mapE (fun r => pyToNum r.duration_seconds) routes with
    | .error e => .error e
    | .ok durs => .ok (List.insertionSort score_ge (scored_candidates routes criteria durs))

/-- The error dictionary built by `optimize_route`'s `except` handler. -/
def error_result (message : String) : RouteResult :=
  { status := "error", message := some message, query := none, routes := [],
    metadata := { traffic_conditions := none, weather_conditions := none,
                  route_count := none, error_details := some message } }

/-- The body of `RouteOptimizer.optimize_route` inside its `try` block,
returning the response together with the updated cache.  The clock reading
`now` and the haversine function `hav` (see `create_dummy_routes`) are
explicit parameters. -/
def optimize_route_body (clients : ApiClients) (hav : Point → Point → ℚ)
    (cache : Cache) (now : ℚ) (origin destination : Point) (stops : List Point)
    (vehicle_type departure_time optimization_criteria : String)
    (max_alternatives : ℕ) : Except String (RouteResult × Cache) :=
  let cache_key := generate_cache_key origin destination stops vehicle_type
    optimization_criteria
  match get_from_cache cache now cache_key with
  | some cached_result => .ok (cached_result, cache)
  | none =>
    let route_area := get_route_area origin destination stops
    let traffic_data := get_traffic_data clients route_area
    let weather_data := get_weather_data clients route_area
    let tomtom_routes := get_tomtom_routes clients origin destination stops
      vehicle_type departure_time
    let gmaps_routes := get_google_routes clients origin destination stops departure_time
    let osrm_routes := get_osrm_routes clients origin destination stops
    let all_routes :=
      if tomtom_routes = [] ∧ gmaps_routes = [] ∧ osrm_routes = [] then
        normalize_routes [create_dummy_routes hav origin destination stops]
      else
        normalize_routes [tomtom_routes, gmaps_routes, osrm_routes]
    match calculate_emissions all_routes vehicle_type with
    | .error e => .error e
    | .ok routes_with_emissions =>
      match score_routes routes_with_emissions optimization_criteria with
      | .error e => .error e
      | .ok scored_routes =>
        let final_routes := scored_routes.take max_alternatives
        let result : RouteResult :=
          { status := "success", message := none,
            query := some { origin := origin, destination := destination, stops := stops,
                            vehicle_type := vehicle_type,
                            optimization_criteria := optimization_criteria },
            routes := final_routes,
            metadata := { traffic_conditions := some (summarize_traffic traffic_data),
                          weather_conditions := some (summarize_weather weather_data),
                          route_count := some final_routes.length,
                          error_details := none } }
        .ok (result, add_to_cache cache now cache_key result)

/-- `RouteOptimizer.optimize_route`: total entry point; any exception raised
by the body is converted into a status-`error` result (and the cache is left
as it was). -/
def optimize_route (clients : ApiClients) (hav : Point → Point → ℚ)
    (cache : Cache) (now : ℚ) (origin destination : Point) (stops : List Point)
    (vehicle_type departure_time optimization_criteria : String)
    (max_alternatives : ℕ) : RouteResult × Cache :=
  match optimize_route_body clients hav cache now origin destination stops
      vehicle_type departure_time optimization_criteria max_alternatives with
  | .ok rc => rc
  | .error e => (error_result e, cache)

/-- An `api_clients` dictionary with no configured provider. -/
def no_clients : ApiClients :=
  { tomtom := none, google_maps := none, osrm := none, aqicn := none }

end RouteOptimizer

open RouteOptimizer

/-- C5: for every distance, vehicle type, speed, gradient, payload, congestion
and weather string, the non-fallback emissions estimate equals
(distance_km × base_emission_rate × speed_factor × gradient_factor ×
payload_factor × traffic_factor × weather_factor) / 1000 kg, with the step
speed factor (1.2 below 30, 1.15 above 75, else 1), gradient factor
1 + 0.02·|gradient|, payload factor 1 + (payload/100)·vehicle.payload_factor,
traffic factor 1 + 0.3·congestion, and the case-insensitive weather factor
(rain 1.05, snow 1.10, strong wind 1.08, else 1). -/
theorem C5_emissions_formula
    (distance_miles avg_speed_mph gradient payload_kg traffic_congestion : ℚ)
    (vehicle_type weather_conditions : String) (vf : EmissionsCalculator.VehicleFactors)
    (h : EmissionsCalculator.default_emission_factors.lookup
      (EmissionsCalculator.resolve_vehicle_type EmissionsCalculator.default_emission_factors
        vehicle_type) = some vf) :
    EmissionsCalculator.calculate_emissions EmissionsCalculator.default_emission_factors
      distance_miles vehicle_type avg_speed_mph gradient payload_kg traffic_congestion
      weather_conditions =
    distance_miles * 1.60934 * vf.base_emission_rate *
      (if avg_speed_mph < 30 then 1.2 else if avg_speed_mph > 75 then 1.15 else 1) *
      (1 + 0.02 * |gradient|) *
      (1 + payload_kg / 100 * vf.payload_factor) *
      (1 + 0.3 * traffic_congestion) *
      (if weather_conditions.toLower = "rain" then 1.05
        else if weather_conditions.toLower = "snow" then 1.1
        else if weather_conditions.toLower = "strong wind" then 1.08 else 1) / 1000 := by
  unfold EmissionsCalculator.calculate_emissions EmissionsCalculator.calculate_emissions_core
  rw [h]
  split_ifs <;> ring

/-- Witness for C5 at distance 10 mi, vehicle `Box Truck`, 20 mph, gradient
−5, payload 200 kg, congestion 1, weather `Snow`. -/
theorem C5_emissions_formula_witness :
    EmissionsCalculator.default_emission_factors.lookup
      (EmissionsCalculator.resolve_vehicle_type EmissionsCalculator.default_emission_factors
        "Box Truck") = some ⟨450, 8, 0.08⟩
    ∧ EmissionsCalculator.calculate_emissions EmissionsCalculator.default_emission_factors
        10 "Box Truck" 20 (-5) 200 1 "Snow" =
      10 * 1.60934 * (450 : ℚ) *
        (if (20 : ℚ) < 30 then 1.2 else if (20 : ℚ) > 75 then 1.15 else 1) *
        (1 + 0.02 * |(-5 : ℚ)|) *
        (1 + 200 / 100 * (0.08 : ℚ)) *
        (1 + 0.3 * 1) *
        (if "Snow".toLower = "rain" then 1.05
          else if "Snow".toLower = "snow" then 1.1
          else if "Snow".toLower = "strong wind" then 1.08 else 1) / 1000 :=
  ⟨rfl, C5_emissions_formula 10 20 (-5) 200 1 "Box Truck" "Snow" ⟨450, 8, 0.08⟩ rfl⟩

/-- C7: whenever the body of the factor-model estimator raises, the wrapper
returns the fallback linear estimate distance_miles × 0.4 kg instead of
propagating (the estimator itself is a total function). -/
theorem C7_emissions_fallback (emission_factors : List (String × EmissionsCalculator.VehicleFactors))
    (distance_miles avg_speed_mph gradient payload_kg traffic_congestion : ℚ)
    (vehicle_type weather_conditions : String) (e : String)
    (h : EmissionsCalculator.calculate_emissions_core emission_factors distance_miles
      vehicle_type avg_speed_mph gradient payload_kg traffic_congestion weather_conditions
      = .error e) :
    EmissionsCalculator.calculate_emissions emission_factors distance_miles vehicle_type
      avg_speed_mph gradient payload_kg traffic_congestion weather_conditions
      = distance_miles * 0.4 := by
  unfold EmissionsCalculator.calculate_emissions
  rw [h]

/-- Witness for C7: with an emission-factor table missing even the
`Delivery Van` fallback key, the lookup raises and 5 mi falls back to
5 × 0.4 kg. -/
theorem C7_emissions_fallback_witness :
    EmissionsCalculator.calculate_emissions_core [] 5 "Truck" 55 0 0 0 "normal"
      = .error "KeyError"
    ∧ EmissionsCalculator.calculate_emissions [] 5 "Truck" 55 0 0 0 "normal" = 5 * 0.4 :=
  ⟨rfl, C7_emissions_fallback [] 5 55 0 0 0 "Truck" "normal" "KeyError" rfl⟩

/-- C9: the emissions estimate is linear in distance with the other inputs
fixed — doubling the distance doubles the estimate (on the fallback path as
well), and distance 0 yields 0 kg. -/
theorem C9_emissions_linear (emission_factors : List (String × EmissionsCalculator.VehicleFactors))
    (distance_miles avg_speed_mph gradient payload_kg traffic_congestion : ℚ)
    (vehicle_type weather_conditions : String) :
    EmissionsCalculator.calculate_emissions emission_factors (2 * distance_miles) vehicle_type
        avg_speed_mph gradient payload_kg traffic_congestion weather_conditions
      = 2 * EmissionsCalculator.calculate_emissions emission_factors distance_miles vehicle_type
        avg_speed_mph gradient payload_kg traffic_congestion weather_conditions
    ∧ EmissionsCalculator.calculate_emissions emission_factors 0 vehicle_type
        avg_speed_mph gradient payload_kg traffic_congestion weather_conditions = 0 := by
  unfold EmissionsCalculator.calculate_emissions EmissionsCalculator.calculate_emissions_core
  cases h : emission_factors.lookup
      (EmissionsCalculator.resolve_vehicle_type emission_factors vehicle_type) with
  | none => exact ⟨by ring, by ring⟩
  | some vf => exact ⟨by push_cast; ring, by push_cast; ring⟩

/-- C6: a cache `put` followed by an immediate `get` of the same key returns
the stored value; a `get` strictly within the TTL window (600 s) still
returns it, and a `get` once `now − timestamp ≥ ttl` returns absent. -/
theorem C6_cache_roundtrip_ttl (cache : Cache) (key : List Char) (data : RouteResult)
    (now t : ℚ) :
    get_from_cache (add_to_cache cache now key data) now key = some data
    ∧ (t - now < cache_ttl → get_from_cache (add_to_cache cache now key data) t key = some data)
    ∧ (cache_ttl ≤ t - now → get_from_cache (add_to_cache cache now key data) t key = none) := by
  refine ⟨?_, fun h => ?_, fun h => ?_⟩ <;>
    simp only [get_from_cache, add_to_cache, List.lookup, beq_self_eq_true]
  · rw [if_pos (by norm_num [cache_ttl])]
  · rw [if_pos h]
  · rw [if_neg (not_lt.mpr h)]

/-- Witness for C6 at an entry inserted at time 0, read back at times 0, 599
and 600 (the TTL boundary: 600 is already expired because the check is
strict). -/
theorem C6_cache_roundtrip_ttl_witness :
    get_from_cache (add_to_cache [] 0 ['k'] (error_result "x")) 599 ['k']
      = some (error_result "x")
    ∧ get_from_cache (add_to_cache [] 0 ['k'] (error_result "x")) 600 ['k'] = none :=
  ⟨(C6_cache_roundtrip_ttl [] ['k'] (error_result "x") 0 599).2.1 (by norm_num [cache_ttl]),
   (C6_cache_roundtrip_ttl [] ['k'] (error_result "x") 0 600).2.2 (by norm_num [cache_ttl])⟩

/-- C10: the profile-based estimator of `prototype.py` is total: a vehicle
configuration with neither efficiency key yields 0.0 kg, any internally
raised exception yields 0.0 kg (not the `distance × 0.4` fallback of the
factor model), and a combustion configuration without a `fuel_type` key uses
the diesel emission factor. -/
theorem C10_prototype_total (s : Prototype.Settings) (distance_meters : ℚ)
    (cfg : Prototype.VehicleConfig) (e : String) (factors : List (String × ℚ)) (eff : ℚ) :
    (cfg.fuel_efficiency_l_per_100km = none → cfg.energy_efficiency_kwh_per_100km = none →
      Prototype.calculate_emissions s distance_meters cfg = 0)
    ∧ (Prototype.calculate_emissions_core s distance_meters cfg = .error e →
      Prototype.calculate_emissions s distance_meters cfg = 0)
    ∧ (cfg.fuel_efficiency_l_per_100km = some eff → cfg.fuel_type = none →
      s = some factors →
      Prototype.calculate_emissions s distance_meters cfg =
        distance_meters / 1000 * eff / 100 * ((factors.lookup "diesel").getD 0)) := by
  refine ⟨fun h1 h2 => ?_, fun hb => ?_, fun hf hft hs => ?_⟩
  · unfold Prototype.calculate_emissions Prototype.calculate_emissions_core
    rw [h1, h2]
  · unfold Prototype.calculate_emissions
    rw [hb]
  · unfold Prototype.calculate_emissions Prototype.calculate_emissions_core
    rw [hf, hft, hs]
    rfl

/-- Witness for C10: the three branches at concrete inputs — an empty
configuration, an unloaded settings module (which makes the lookup raise),
and a 12 L/100 km combustion profile without `fuel_type` under a loaded
diesel factor of 2.68. -/
theorem C10_prototype_total_witness :
    Prototype.calculate_emissions none 5 ⟨none, none, none⟩ = 0
    ∧ Prototype.calculate_emissions none 5 ⟨some 12, none, some "diesel"⟩ = 0
    ∧ Prototype.calculate_emissions (some [("diesel", 2.68)]) 1000 ⟨some 12, none, none⟩
      = 1000 / 1000 * 12 / 100 * (((([("diesel", (2.68 : ℚ))]).lookup "diesel").getD 0)) :=
  ⟨(C10_prototype_total none 5 ⟨none, none, none⟩ "" [] 0).1 rfl rfl,
   (C10_prototype_total none 5 ⟨some 12, none, some "diesel"⟩
      "Configuration not loaded. Call load_config() first." [] 0).2.1 rfl,
   (C10_prototype_total (some [("diesel", 2.68)]) 1000 ⟨some 12, none, none⟩ "" [("diesel", 2.68)]
      12).2.2 rfl rfl rfl⟩

/-- A three-candidate set (durations 0, 2, 3 s; all emissions 1 kg) on which
the claimed `round` disagrees with the code's `int` truncation. -/
def c1_routes : List EmissionRoute :=
  [⟨"a", "p", .num 0, .num 0, .num 0, [], 1⟩,
   ⟨"b", "p", .num 0, .num 2, .num 0, [], 1⟩,
   ⟨"c", "p", .num 0, .num 3, .num 0, [], 1⟩]

/-- The scored output of `_score_routes` on `c1_routes` under `balanced`. -/
def c1_out : List ScoredRoute :=
  [⟨"a", "p", .num 0, 0, .num 0, [], 1, 100, "Highly Recommended"⟩,
   ⟨"b", "p", .num 0, 2, .num 0, [], 1, 66, "Recommended"⟩,
   ⟨"c", "p", .num 0, 3, .num 0, [], 1, 50, "Alternative Option"⟩]

lemma c1_eval : score_routes c1_routes "balanced" = .ok c1_out := by
  have h0 : score_routes c1_routes "balanced"
      = .ok (List.insertionSort score_ge (scored_candidates c1_routes "balanced" [0, 2, 3])) :=
    rfl
  have hw : score_weights "balanced" = (0.5, 0.5) := by
    rw [score_weights, if_neg (by decide), if_neg (by decide)]
  have h2 : scored_candidates c1_routes "balanced" [0, 2, 3] = c1_out := by
    norm_num [scored_candidates, c1_routes, c1_out, score_one, list_min, list_max,
      hw, recommendation_label, pyInt]
  rw [h0, h2]
  norm_num [List.insertionSort, List.orderedInsert, score_ge, c1_out]

/-- C1 counterexample: on the candidate set `c1_routes` with `balanced`
priority, the route with duration 2 receives the code score 66
(`int` truncation of 200/3 ≈ 66.7), while the claimed
`round(100 × (w_t·time_score + w_e·emissions_score))` is 67 — so the scorer
does not assign `round(...)`. -/
theorem C1_round_counterexample :
    score_routes c1_routes "balanced" = .ok c1_out
    ∧ c1_out.map (·.score) = [100, 66, 50]
    ∧ round ((100 : ℚ) * (0.5 * (1 - ((2 : ℚ) - list_min [0, 2, 3]) /
        max 1 (list_max [0, 2, 3] - list_min [0, 2, 3])) +
        0.5 * (1 - ((1 : ℚ) - list_min (c1_routes.map (·.emissions_kg_co2))) /
        max 0.1 (list_max (c1_routes.map (·.emissions_kg_co2)) -
          list_min (c1_routes.map (·.emissions_kg_co2)))))) = 67 :=
  ⟨c1_eval, rfl, by rw [round_eq]; norm_num [list_min, list_max, c1_routes]⟩

/-- C1 (amended): for every non-empty candidate set and every optimization
priority, the scorer assigns each route
score = int(100 × (w_time·time_score + w_emissions·emissions_score)) with
`int` truncating toward zero (not rounding to nearest); weights (0.8, 0.2)
for `time`, (0.2, 0.8) for `emissions`, (0.5, 0.5) otherwise;
time_score = 1 − (duration − min_duration)/range with range floor 1 s, and
emissions_score analogously with range floor 0.1 kg. -/
theorem C1_score_truncation (routes : List EmissionRoute) (criteria : String)
    (durs : List ℚ) (out : List ScoredRoute)
    (hne : routes ≠ [])
    (hdurs : mapE (fun r => pyToNum r.duration_seconds) routes = .ok durs)
    (hout : score_routes routes criteria = .ok out) :
    ∀ sc ∈ out,
      sc.score = pyInt (100 *
        ((if criteria = "time" then (0.8 : ℚ)
            else if criteria = "emissions" then 0.2 else 0.5) *
          (1 - (sc.duration_seconds - list_min durs) /
            max 1 (list_max durs - list_min durs)) +
        (if criteria = "time" then (0.2 : ℚ)
            else if criteria = "emissions" then 0.8 else 0.5) *
          (1 - (sc.emissions_kg_co2 - list_min (routes.map (·.emissions_kg_co2))) /
            max 0.1 (list_max (routes.map (·.emissions_kg_co2)) -
              list_min (routes.map (·.emissions_kg_co2)))))) := by
  intro sc hsc
  rw [score_routes, if_neg hne, hdurs] at hout
  have hout' : out = List.insertionSort score_ge (scored_candidates routes criteria durs) :=
    (Except.ok.inj hout).symm
  rw [hout'] at hsc
  have hmem : sc ∈ scored_candidates routes criteria durs :=
    ((List.perm_insertionSort score_ge _).mem_iff).mp hsc
  rw [scored_candidates] at hmem
  obtain ⟨p, _, rfl⟩ := List.mem_map.mp hmem
  have h1 : (0 : ℚ) < max 1 (list_max durs - list_min durs) :=
    lt_max_iff.mpr (Or.inl one_pos)
  have h2 : (0 : ℚ) < max 0.1 (list_max (routes.map (·.emissions_kg_co2)) -
      list_min (routes.map (·.emissions_kg_co2))) :=
    lt_max_iff.mpr (Or.inl (by norm_num))
  simp only [score_one, score_weights, if_pos h1, if_pos h2]
  split_ifs <;> (congr 1; ring)

/-- Witness for C1 (amended) on `c1_routes` under `balanced`: the duration-2
route's code score 66 equals the truncated formula value. -/
theorem C1_score_truncation_witness :
    (66 : ℤ) = pyInt (100 *
      ((if "balanced" = "time" then (0.8 : ℚ)
          else if "balanced" = "emissions" then 0.2 else 0.5) *
        (1 - ((2 : ℚ) - list_min [0, 2, 3]) /
          max 1 (list_max [0, 2, 3] - list_min [0, 2, 3])) +
      (if "balanced" = "time" then (0.2 : ℚ)
          else if "balanced" = "emissions" then 0.8 else 0.5) *
        (1 - ((1 : ℚ) - list_min (c1_routes.map (·.emissions_kg_co2))) /
          max 0.1 (list_max (c1_routes.map (·.emissions_kg_co2)) -
            list_min (c1_routes.map (·.emissions_kg_co2)))))) :=
  C1_score_truncation c1_routes "balanced" [0, 2, 3] c1_out (by simp [c1_routes]) rfl c1_eval
    ⟨"b", "p", .num 0, 2, .num 0, [], 1, 66, "Recommended"⟩
    (List.mem_cons_of_mem _ (List.mem_cons_self _ _))

/-- C8: for every non-empty candidate set, the sequence returned by the
scorer is sorted by score in descending order, and routes with equal scores
appear in the same relative order as in the (scored) input — the stable-sort
contract of CPython's `sorted(..., reverse=True)`. -/
theorem C8_sorted_stable (routes : List EmissionRoute) (criteria : String)
    (durs : List ℚ) (out : List ScoredRoute)
    (hne : routes ≠ [])
    (hdurs : mapE (fun r => pyToNum r.duration_seconds) routes = .ok durs)
    (hout : score_routes routes criteria = .ok out) :
    (out.map (·.score)).Sorted (· ≥ ·)
    ∧ ∀ s : ℤ, out.filter (fun r => r.score = s)
        = (scored_candidates routes criteria durs).filter (fun r => r.score = s) := by
  rw [score_routes, if_neg hne, hdurs] at hout
  have hout' : out = List.insertionSort score_ge (scored_candidates routes criteria durs) :=
    (Except.ok.inj hout).symm
  subst hout'
  constructor
  · exact List.pairwise_map.mpr (List.sorted_insertionSort score_ge _)
  · intro s
    set lst := scored_candidates routes criteria durs with hlst
    set p : ScoredRoute → Bool := fun r => decide (r.score = s) with hp
    have hpair : (lst.filter p).Pairwise score_ge := by
      apply List.pairwise_of_forall_mem_list
      intro a ha b hb
      have ha' : a.score = s := of_decide_eq_true (List.mem_filter.mp ha).2
      have hb' : b.score = s := of_decide_eq_true (List.mem_filter.mp hb).2
      show b.score ≤ a.score
      rw [ha', hb']
    have hstab : List.Sublist (lst.filter p) (List.insertionSort score_ge lst) :=
      List.sublist_insertionSort hpair (List.filter_sublist lst)
    have hfil : (lst.filter p).filter p = lst.filter p :=
      List.filter_eq_self.mpr fun a ha => (List.mem_filter.mp ha).2
    have h2 : List.Sublist (lst.filter p) ((List.insertionSort score_ge lst).filter p) := by
      have := List.Sublist.filter p hstab
      rwa [hfil] at this
    have hlen : (lst.filter p).length = ((List.insertionSort score_ge lst).filter p).length :=
      (((List.perm_insertionSort score_ge lst).filter p).length_eq).symm
    exact (h2.eq_of_length hlen).symm

/-- A two-candidate set that ties on both duration and emissions: both routes
score 100, exercising the stable-tie contract. -/
def c8_routes : List EmissionRoute :=
  [⟨"a", "p", .num 0, .num 5, .num 0, [], 1⟩,
   ⟨"b", "p", .num 0, .num 5, .num 0, [], 1⟩]

/-- Witness for C8 on `c8_routes` under `time` priority, at tie score 100. -/
theorem C8_sorted_stable_witness :
    ((List.insertionSort score_ge (scored_candidates c8_routes "time" [5, 5])).map
      (·.score)).Sorted (· ≥ ·)
    ∧ (List.insertionSort score_ge (scored_candidates c8_routes "time" [5, 5])).filter
        (fun r => r.score = (100 : ℤ))
      = (scored_candidates c8_routes "time" [5, 5]).filter (fun r => r.score = (100 : ℤ)) := by
  have h := C8_sorted_stable c8_routes "time" [5, 5]
    (List.insertionSort score_ge (scored_candidates c8_routes "time" [5, 5]))
    (by simp [c8_routes]) rfl rfl
  exact ⟨h.1, h.2 100⟩

/-- C2: the `optimize_route` entry point is total — it is a function into
`RouteResult × Cache` by construction — and whenever its body raises an
exception, the returned result is the status-`error` envelope carrying the
error message (and the cache is unchanged). -/
theorem C2_optimize_total_error (clients : ApiClients) (hav : Point → Point → ℚ)
    (cache : Cache) (now : ℚ) (origin destination : Point) (stops : List Point)
    (vehicle_type departure_time optimization_criteria : String) (max_alternatives : ℕ)
    (e : String)
    (h : optimize_route_body clients hav cache now origin destination stops vehicle_type
      departure_time optimization_criteria max_alternatives = .error e) :
    optimize_route clients hav cache now origin destination stops vehicle_type
      departure_time optimization_criteria max_alternatives = (error_result e, cache)
    ∧ (error_result e).status = "error" ∧ (error_result e).message = some e := by
  refine ⟨?_, rfl, rfl⟩
  rw [optimize_route, h]

/-- A client configuration whose TomTom provider returns a route with a
string-typed `lengthInMeters`, making the emissions stage raise `TypeError`
inside `optimize_route`'s `try` block. -/
def bad_clients : ApiClients :=
  { tomtom := some
      { get_route := fun _ _ _ _ _ =>
          .ok [⟨some (.str "12 km"), some (.num 600), some (.num 0), []⟩],
        get_traffic_flow := fun _ => .ok { status := "demo" } },
    google_maps := none, osrm := none, aqicn := none }

/-- Witness for C2: with `bad_clients`, the pipeline raises at the
`distance_meters / 1000` division and `optimize_route` returns the error
envelope instead of propagating. -/
theorem C2_optimize_total_error_witness :
    optimize_route bad_clients (fun _ _ => 0) [] 0 (0, 0) (1, 1) [] "delivery_van" "now"
      "balanced" 3
    = (error_result "TypeError: unsupported operand type(s) for /", []) :=
  (C2_optimize_total_error bad_clients (fun _ _ => 0) [] 0 (0, 0) (1, 1) [] "delivery_van"
    "now" "balanced" 3 "TypeError: unsupported operand type(s) for /" rfl).1

/-- The route record that the dummy-fallback pipeline presents to the scorer:
variant `i` with distance factor `df` and time factor `tf` applied to the
haversine base distance `b`, duration derived from a 40 km/h average speed,
traffic delay `max(0, int(0.1 × duration))`, and placeholder per-km
emissions. -/
def dummy_emission_route (b : ℚ) (origin destination : Point) (vehicle_type : String)
    (i : ℕ) (df tf : ℚ) : EmissionRoute :=
  let distance : ℤ := pyInt (b * df)
  let duration : ℤ := pyInt ((distance : ℚ) / 1000 * 3600 / 40 * tf)
  { id := "demo-" ++ toString i, provider := "demo",
    distance_meters := .num (distance : ℚ),
    duration_seconds := .num (duration : ℚ),
    traffic_delay_seconds := .num ((max 0 (pyInt ((duration : ℚ) * 0.1)) : ℤ) : ℚ),
    geometry := [origin, destination],
    emissions_kg_co2 := pyRound2 ((distance : ℚ) / 1000 * vehicle_rate vehicle_type) }

/-- The duration (seconds) of a dummy route variant: the base distance scaled
by the distance factor, converted at 40 km/h, scaled by the time factor, with
Python `int()` truncation at each step as in the source. -/
def dummy_duration (b df tf : ℚ) : ℚ :=
  ((pyInt ((pyInt (b * df) : ℚ) / 1000 * 3600 / 40 * tf) : ℤ) : ℚ)

/-- The (distance, duration, traffic delay) summary triple of a dummy route
variant, as claimed: distance = int(b·df), duration from 40 km/h, delay = 10%
of duration. -/
def dummy_summary (b df tf : ℚ) : PyVal × ℚ × PyVal :=
  (.num ((pyInt (b * df) : ℤ) : ℚ), dummy_duration b df tf,
   .num ((max 0 (pyInt (dummy_duration b df tf * 0.1)) : ℤ) : ℚ))

/-- The three dummy candidates reaching the scorer for a request with zero
configured providers. -/
def c4_candidates (hav : Point → Point → ℚ) (origin destination : Point)
    (vehicle_type : String) : List EmissionRoute :=
  [dummy_emission_route (hav origin destination) origin destination vehicle_type 0 1.0 1.0,
   dummy_emission_route (hav origin destination) origin destination vehicle_type 1 0.95 1.1,
   dummy_emission_route (hav origin destination) origin destination vehicle_type 2 1.05 1.05]

/-- The numeric durations of the three dummy candidates. -/
def c4_durations (hav : Point → Point → ℚ) (origin destination : Point) : List ℚ :=
  [dummy_duration (hav origin destination) 1.0 1.0,
   dummy_duration (hav origin destination) 0.95 1.1,
   dummy_duration (hav origin destination) 1.05 1.05]

/-- C4: with zero configured routing providers and a cold cache, every
request succeeds: status `success` and exactly 3 routes, whose
(distance, duration, traffic-delay) summaries are precisely the three fixed
variants (1.0/1.0, 0.95/1.1, 1.05/1.05) applied to the haversine
origin-destination distance, with duration from a 40 km/h average speed and a
10% traffic delay. -/
theorem C4_dummy_routes (hav : Point → Point → ℚ) (now : ℚ) (origin destination : Point)
    (stops : List Point) (vehicle_type departure_time optimization_criteria : String) :
    (optimize_route no_clients hav [] now origin destination stops vehicle_type
        departure_time optimization_criteria 3).1.status = "success"
    ∧ (optimize_route no_clients hav [] now origin destination stops vehicle_type
        departure_time optimization_criteria 3).1.routes.length = 3
    ∧ ((optimize_route no_clients hav [] now origin destination stops vehicle_type
        departure_time optimization_criteria 3).1.routes.map fun r =>
          (r.distance_meters, r.duration_seconds, r.traffic_delay_seconds)).Perm
      [dummy_summary (hav origin destination) 1.0 1.0,
       dummy_summary (hav origin destination) 0.95 1.1,
       dummy_summary (hav origin destination) 1.05 1.05] := by
  have hroutes : (optimize_route no_clients hav [] now origin destination stops vehicle_type
      departure_time optimization_criteria 3).1.routes
      = (List.insertionSort score_ge (scored_candidates
          (c4_candidates hav origin destination vehicle_type) optimization_criteria
          (c4_durations hav origin destination))).take 3 := rfl
  have hlst_len : (scored_candidates (c4_candidates hav origin destination vehicle_type)
      optimization_criteria (c4_durations hav origin destination)).length = 3 := rfl
  have hsort_len : (List.insertionSort score_ge (scored_candidates
      (c4_candidates hav origin destination vehicle_type) optimization_criteria
      (c4_durations hav origin destination))).length = 3 := by
    rw [(List.perm_insertionSort score_ge _).length_eq]
    exact hlst_len
  have htake : (List.insertionSort score_ge (scored_candidates
      (c4_candidates hav origin destination vehicle_type) optimization_criteria
      (c4_durations hav origin destination))).take 3
      = List.insertionSort score_ge (scored_candidates
          (c4_candidates hav origin destination vehicle_type) optimization_criteria
          (c4_durations hav origin destination)) := by
    apply List.take_of_length_le
    rw [hsort_len]
  refine ⟨rfl, ?_, ?_⟩
  · rw [hroutes, htake, hsort_len]
  · rw [hroutes, htake]
    have hmap : (scored_candidates (c4_candidates hav origin destination vehicle_type)
        optimization_criteria (c4_durations hav origin destination)).map (fun r =>
          (r.distance_meters, r.duration_seconds, r.traffic_delay_seconds))
        = [dummy_summary (hav origin destination) 1.0 1.0,
           dummy_summary (hav origin destination) 0.95 1.1,
           dummy_summary (hav origin destination) 1.05 1.05] := rfl
    exact hmap ▸ ((List.perm_insertionSort score_ge _).map _)

/-- Splitting a one-character-separated concatenation: if neither prefix
contains the separator, the prefixes and suffixes agree. -/
lemma sep_split (sep : Char) (a : List Char) : ∀ (b r s : List Char), sep ∉ a → sep ∉ b →
    a ++ sep :: r = b ++ sep :: s → a = b ∧ r = s := by
  induction a with
  | nil =>
    intro b r s _ hb h
    cases b with
    | nil => simpa using h
    | cons c b' =>
      exfalso
      rw [List.nil_append, List.cons_append] at h
      obtain ⟨h1, _⟩ := List.cons.inj h
      exact hb (by rw [← h1]; exact List.mem_cons_self sep b')
  | cons x a' ih =>
    intro b r s ha hb h
    cases b with
    | nil =>
      exfalso
      rw [List.nil_append, List.cons_append] at h
      obtain ⟨h1, _⟩ := List.cons.inj h
      exact ha (by rw [h1]; exact List.mem_cons_self sep a')
    | cons y b' =>
      rw [List.cons_append, List.cons_append] at h
      obtain ⟨hxy, h2⟩ := List.cons.inj h
      have h3 := ih b' r s (fun hm => ha (List.mem_cons_of_mem _ hm))
        (fun hm => hb (List.mem_cons_of_mem _ hm)) h2
      exact ⟨by rw [hxy, h3.1], h3.2⟩

lemma joinSep_append (sep : Char) (l1 : List (List Char)) : ∀ (l2 : List (List Char)),
    l1 ≠ [] → l2 ≠ [] →
    joinSep sep (l1 ++ l2) = joinSep sep l1 ++ sep :: joinSep sep l2 := by
  induction l1 with
  | nil => intro l2 h1 _; exact absurd rfl h1
  | cons t l1' ih =>
    intro l2 _ h2
    cases l1' with
    | nil =>
      cases l2 with
      | nil => exact absurd rfl h2
      | cons u l2' => simp [joinSep]
    | cons t2 l1'' =>
      rw [List.cons_append]
      have e1 : joinSep sep (t :: (t2 :: l1'' ++ l2)) =
          t ++ sep :: joinSep sep (t2 :: l1'' ++ l2) := by
        rw [List.cons_append]
        rfl
      rw [e1, ih l2 (List.cons_ne_nil _ _) h2]
      simp [joinSep, List.append_assoc]

lemma joinSep_inj (sep : Char) (l1 : List (List Char)) : ∀ (l2 : List (List Char)),
    (∀ t ∈ l1, sep ∉ t) → (∀ t ∈ l2, sep ∉ t) → l1 ≠ [] → l2 ≠ [] →
    joinSep sep l1 = joinSep sep l2 → l1 = l2 := by
  induction l1 with
  | nil => intro l2 _ _ h1 _ _; exact absurd rfl h1
  | cons a l1' ih =>
    intro l2 h1 h2 _ hne2 heq
    cases l2 with
    | nil => exact absurd rfl hne2
    | cons b l2' =>
      cases l1' with
      | nil =>
        cases l2' with
        | nil =>
          simp only [joinSep] at heq
          rw [heq]
        | cons c l2'' =>
          exfalso
          have heq' : a = b ++ sep :: joinSep sep (c :: l2'') := heq
          exact h1 a (List.mem_cons_self a []) (by
            rw [heq']
            exact List.mem_append_right b (List.mem_cons_self sep _))
      | cons a2 l1'' =>
        cases l2' with
        | nil =>
          exfalso
          have heq' : a ++ sep :: joinSep sep (a2 :: l1'') = b := heq
          exact h2 b (List.mem_cons_self b []) (by
            rw [← heq']
            exact List.mem_append_right a (List.mem_cons_self sep _))
        | cons b2 l2'' =>
          have heq' : a ++ sep :: joinSep sep (a2 :: l1'') =
              b ++ sep :: joinSep sep (b2 :: l2'') := heq
          obtain ⟨hab, htail⟩ := sep_split sep a _ _ _
            (h1 a (List.mem_cons_self a _)) (h2 b (List.mem_cons_self b _)) heq'
          have h3 := ih (b2 :: l2'')
            (fun t ht => h1 t (List.mem_cons_of_mem _ ht))
            (fun t ht => h2 t (List.mem_cons_of_mem _ ht))
            (List.cons_ne_nil _ _) (List.cons_ne_nil _ _) htail
          rw [hab, h3]

/-- The token list contributed by the stops segment of the cache key: the
empty token for no stops, otherwise one `lat:lon` token per stop. -/
def stop_tokens (stops : List Point) : List (List Char) :=
  if stops = [] then [[]] else stops.map stop_str

lemma generate_cache_key_eq (o d : Point) (st : List Point) (v c : String) :
    generate_cache_key o d st v c
      = joinSep '-' ([floatStr o.1 ++ ':' :: floatStr o.2,
          floatStr d.1 ++ ':' :: floatStr d.2] ++ stop_tokens st ++ [v.data, c.data]) := by
  cases st with
  | nil => simp [generate_cache_key, stop_tokens, joinSep]
  | cons s st' =>
    have h1 : stop_tokens (s :: st') = (s :: st').map stop_str := by
      simp [stop_tokens]
    rw [h1, List.append_assoc,
      joinSep_append '-' _ _ (by simp) (by simp),
      joinSep_append '-' _ _ (by simp) (by simp)]
    simp [generate_cache_key, joinSep, List.append_assoc]

/-- All coordinates occurring in a request, in order. -/
def request_coords (o d : Point) (st : List Point) : List ℚ :=
  o.1 :: o.2 :: d.1 :: d.2 :: (st.map fun s => [s.1, s.2]).flatten

lemma stop_coord_mem (o d : Point) (st : List Point) (p : Point) (hp : p ∈ st) :
    p.1 ∈ request_coords o d st ∧ p.2 ∈ request_coords o d st := by
  constructor <;>
    · simp only [request_coords, List.mem_cons]
      refine Or.inr (Or.inr (Or.inr (Or.inr (List.mem_flatten.mpr
        ⟨[p.1, p.2], List.mem_map_of_mem _ hp, by simp⟩))))

lemma dash_not_mem_stop_str {p : Point} (h1 : '-' ∉ floatStr p.1) (h2 : '-' ∉ floatStr p.2) :
    '-' ∉ stop_str p := by
  simp only [stop_str, List.mem_append, List.mem_cons]
  push_neg
  exact ⟨h1, by decide, h2⟩

lemma map_stop_str_inj (L : List ℚ)
    (hcolon : ∀ q ∈ L, ':' ∉ floatStr q)
    (hinj : ∀ q ∈ L, ∀ q' ∈ L, floatStr q = floatStr q' → q = q') :
    ∀ (st1 st2 : List Point),
      (∀ p ∈ st1, p.1 ∈ L ∧ p.2 ∈ L) → (∀ p ∈ st2, p.1 ∈ L ∧ p.2 ∈ L) →
      st1.map stop_str = st2.map stop_str → st1 = st2 := by
  intro st1
  induction st1 with
  | nil =>
    intro st2 _ _ h
    cases st2 with
    | nil => rfl
    | cons q st2' => simp at h
  | cons p st1' ih =>
    intro st2 hc1 hc2 h
    cases st2 with
    | nil => simp at h
    | cons q st2' =>
      rw [List.map_cons, List.map_cons] at h
      obtain ⟨h1, h2⟩ := List.cons.inj h
      have hpL := hc1 p (List.mem_cons_self p st1')
      have hqL := hc2 q (List.mem_cons_self q st2')
      obtain ⟨hlat, hlon⟩ := sep_split ':' (floatStr p.1) (floatStr q.1) _ _
        (hcolon p.1 hpL.1) (hcolon q.1 hqL.1) h1
      have e1 := hinj p.1 hpL.1 q.1 hqL.1 hlat
      have e2 := hinj p.2 hpL.2 q.2 hqL.2 hlon
      have hpq : p = q := Prod.ext e1 e2
      rw [hpq, ih st2' (fun x hx => hc1 x (List.mem_cons_of_mem _ hx))
        (fun x hx => hc2 x (List.mem_cons_of_mem _ hx)) h2]

/-- C3 (amended): requests identical in all fields produce the same key
string, and the cache-key function is injective — in particular order-of-stops
sensitive — on requests whose vehicle type and priority contain no `'-'` and
whose coordinates render (via Python float `str`) without `'-'` or `':'` and
pairwise-injectively; it is not injective on all requests (see the
counterexample, where a negative stop coordinate collides with a vehicle-type
string that embeds the stop text). -/
theorem C3_cache_key_injective_restricted
    (o1 o2 d1 d2 : Point) (st1 st2 : List Point) (v1 v2 c1 c2 : String) (L : List ℚ)
    (hL : ∀ q ∈ request_coords o1 d1 st1 ++ request_coords o2 d2 st2, q ∈ L)
    (hdash : ∀ q ∈ L, '-' ∉ floatStr q)
    (hcolon : ∀ q ∈ L, ':' ∉ floatStr q)
    (hinj : ∀ q ∈ L, ∀ q' ∈ L, floatStr q = floatStr q' → q = q')
    (hv1 : '-' ∉ v1.data) (hv2 : '-' ∉ v2.data)
    (hc1 : '-' ∉ c1.data) (hc2 : '-' ∉ c2.data) :
    generate_cache_key o1 d1 st1 v1 c1 = generate_cache_key o2 d2 st2 v2 c2
      ↔ (o1 = o2 ∧ d1 = d2 ∧ st1 = st2 ∧ v1 = v2 ∧ c1 = c2) := by
  have mem1 : ∀ q ∈ request_coords o1 d1 st1, q ∈ L :=
    fun q hq => hL q (List.mem_append_left _ hq)
  have mem2 : ∀ q ∈ request_coords o2 d2 st2, q ∈ L :=
    fun q hq => hL q (List.mem_append_right _ hq)
  have mo1a : o1.1 ∈ L := mem1 _ (by simp [request_coords])
  have mo1b : o1.2 ∈ L := mem1 _ (by simp [request_coords])
  have md1a : d1.1 ∈ L := mem1 _ (by simp [request_coords])
  have md1b : d1.2 ∈ L := mem1 _ (by simp [request_coords])
  have mo2a : o2.1 ∈ L := mem2 _ (by simp [request_coords])
  have mo2b : o2.2 ∈ L := mem2 _ (by simp [request_coords])
  have md2a : d2.1 ∈ L := mem2 _ (by simp [request_coords])
  have md2b : d2.2 ∈ L := mem2 _ (by simp [request_coords])
  have mst1 : ∀ p ∈ st1, p.1 ∈ L ∧ p.2 ∈ L := fun p hp =>
    ⟨mem1 _ (stop_coord_mem o1 d1 st1 p hp).1, mem1 _ (stop_coord_mem o1 d1 st1 p hp).2⟩
  have mst2 : ∀ p ∈ st2, p.1 ∈ L ∧ p.2 ∈ L := fun p hp =>
    ⟨mem2 _ (stop_coord_mem o2 d2 st2 p hp).1, mem2 _ (stop_coord_mem o2 d2 st2 p hp).2⟩
  have pair_free : ∀ x y : ℚ, x ∈ L → y ∈ L → '-' ∉ floatStr x ++ ':' :: floatStr y := by
    intro x y hx hy
    simp only [List.mem_append, List.mem_cons]
    push_neg
    exact ⟨hdash x hx, by decide, hdash y hy⟩
  have tok_free1 : ∀ t ∈ [floatStr o1.1 ++ ':' :: floatStr o1.2,
      floatStr d1.1 ++ ':' :: floatStr d1.2] ++ stop_tokens st1 ++ [v1.data, c1.data],
      '-' ∉ t := by
    intro t ht
    simp only [List.mem_append, List.mem_cons] at ht
    rcases ht with ((rfl | rfl | h) | h) | (rfl | rfl | h)
    · exact pair_free _ _ mo1a mo1b
    · exact pair_free _ _ md1a md1b
    · exact absurd h (List.not_mem_nil t)
    · rw [stop_tokens] at h
      by_cases hst : st1 = []
      · rw [if_pos hst] at h
        simp only [List.mem_cons, List.not_mem_nil, or_false] at h
        rw [h]
        exact List.not_mem_nil '-'
      · rw [if_neg hst] at h
        obtain ⟨p, hp, rfl⟩ := List.mem_map.mp h
        exact dash_not_mem_stop_str (hdash _ (mst1 p hp).1) (hdash _ (mst1 p hp).2)
    · exact hv1
    · exact hc1
    · exact absurd h (List.not_mem_nil t)
  have tok_free2 : ∀ t ∈ [floatStr o2.1 ++ ':' :: floatStr o2.2,
      floatStr d2.1 ++ ':' :: floatStr d2.2] ++ stop_tokens st2 ++ [v2.data, c2.data],
      '-' ∉ t := by
    intro t ht
    simp only [List.mem_append, List.mem_cons] at ht
    rcases ht with ((rfl | rfl | h) | h) | (rfl | rfl | h)
    · exact pair_free _ _ mo2a mo2b
    · exact pair_free _ _ md2a md2b
    · exact absurd h (List.not_mem_nil t)
    · rw [stop_tokens] at h
      by_cases hst : st2 = []
      · rw [if_pos hst] at h
        simp only [List.mem_cons, List.not_mem_nil, or_false] at h
        rw [h]
        exact List.not_mem_nil '-'
      · rw [if_neg hst] at h
        obtain ⟨p, hp, rfl⟩ := List.mem_map.mp h
        exact dash_not_mem_stop_str (hdash _ (mst2 p hp).1) (hdash _ (mst2 p hp).2)
    · exact hv2
    · exact hc2
    · exact absurd h (List.not_mem_nil t)
  constructor
  · intro h
    rw [generate_cache_key_eq, generate_cache_key_eq] at h
    have htok := joinSep_inj '-' _ _ tok_free1 tok_free2 (by simp) (by simp) h
    simp only [List.cons_append, List.nil_append] at htok
    obtain ⟨ho, htok⟩ := List.cons.inj htok
    obtain ⟨hd, htok⟩ := List.cons.inj htok
    have hlen : (stop_tokens st1).length = (stop_tokens st2).length := by
      have hl := congrArg List.length htok
      simp only [List.length_append, List.length_cons, List.length_nil] at hl
      omega
    obtain ⟨hT, hVC⟩ := List.append_inj htok hlen
    obtain ⟨hv, hVC2⟩ := List.cons.inj hVC
    obtain ⟨hc, _⟩ := List.cons.inj hVC2
    obtain ⟨ho1, ho2⟩ := sep_split ':' _ _ _ _ (hcolon _ mo1a) (hcolon _ mo2a) ho
    obtain ⟨hd1, hd2⟩ := sep_split ':' _ _ _ _ (hcolon _ md1a) (hcolon _ md2a) hd
    have hstops : st1 = st2 := by
      rw [stop_tokens, stop_tokens] at hT
      by_cases h1 : st1 = [] <;> by_cases h2 : st2 = []
      · rw [h1, h2]
      · rw [if_pos h1, if_neg h2] at hT
        exfalso
        rcases st2 with _ | ⟨p, st2'⟩
        · exact h2 rfl
        · rw [List.map_cons] at hT
          obtain ⟨hT1, hT2⟩ := List.cons.inj hT
          have : st2'.map stop_str = [] := hT2.symm
          have hne : stop_str p ≠ [] := by simp [stop_str]
          exact hne hT1.symm
      · rw [if_neg h1, if_pos h2] at hT
        exfalso
        rcases st1 with _ | ⟨p, st1'⟩
        · exact h1 rfl
        · rw [List.map_cons] at hT
          obtain ⟨hT1, _⟩ := List.cons.inj hT
          have hne : stop_str p ≠ [] := by simp [stop_str]
          exact hne hT1
      · rw [if_neg h1, if_neg h2] at hT
        exact map_stop_str_inj L hcolon hinj st1 st2 mst1 mst2 hT
    refine ⟨Prod.ext (hinj _ mo1a _ mo2a ho1) (hinj _ mo1b _ mo2b ho2),
      Prod.ext (hinj _ md1a _ md2a hd1) (hinj _ md1b _ md2b hd2),
      hstops, ?_, ?_⟩
    · cases v1
      cases v2
      simp_all
    · cases c1
      cases c2
      simp_all
  · rintro ⟨rfl, rfl, rfl, rfl, rfl⟩
    rfl

lemma fracDigits_zero (fuel : ℕ) : fracDigits 0 fuel = [] := by
  cases fuel with
  | zero => rfl
  | succ n =>
    rw [fracDigits]
    exact if_pos rfl

/-- Python `str` of a float holding a natural number renders as the digits
followed by `.0`. -/
lemma floatStr_natCast (n : ℕ) : floatStr (n : ℚ) = (toString n).data ++ ['.', '0'] := by
  have h0 : |(n : ℚ)| = (n : ℚ) := abs_of_nonneg (by positivity)
  have h1 : Int.floor ((n : ℚ)) = (n : ℤ) := Int.floor_natCast n
  have h2 : (n : ℚ) - ((n : ℤ) : ℚ) = 0 := by push_cast; ring
  simp only [floatStr, h0, h1, h2, fracDigits_zero, Int.toNat_natCast]
  rw [if_neg (not_lt.mpr (show (0 : ℚ) ≤ (n : ℚ) from Nat.cast_nonneg n))]
  simp

lemma floatStr_neg_natCast (n : ℕ) (h : 0 < n) :
    floatStr (-(n : ℚ)) = '-' :: (toString n).data ++ ['.', '0'] := by
  have hn : (0 : ℚ) < (n : ℚ) := by exact_mod_cast h
  have h0 : |(-(n : ℚ))| = (n : ℚ) := by rw [abs_neg, abs_of_nonneg hn.le]
  have h1 : Int.floor ((n : ℚ)) = (n : ℤ) := Int.floor_natCast n
  have h2 : (n : ℚ) - ((n : ℤ) : ℚ) = 0 := by push_cast; ring
  simp only [floatStr, h0, h1, h2, fracDigits_zero, Int.toNat_natCast]
  rw [if_pos (neg_neg_of_pos hn)]
  simp

lemma floatStr_one : floatStr (1 : ℚ) = ['1', '.', '0'] := by
  rw [show (1 : ℚ) = ((1 : ℕ) : ℚ) by norm_num, floatStr_natCast]
  rfl

lemma floatStr_two : floatStr (2 : ℚ) = ['2', '.', '0'] := by
  rw [show (2 : ℚ) = ((2 : ℕ) : ℚ) by norm_num, floatStr_natCast]
  rfl

lemma floatStr_three : floatStr (3 : ℚ) = ['3', '.', '0'] := by
  rw [show (3 : ℚ) = ((3 : ℕ) : ℚ) by norm_num, floatStr_natCast]
  rfl

lemma floatStr_four : floatStr (4 : ℚ) = ['4', '.', '0'] := by
  rw [show (4 : ℚ) = ((4 : ℕ) : ℚ) by norm_num, floatStr_natCast]
  rfl

lemma floatStr_eight : floatStr (8 : ℚ) = ['8', '.', '0'] := by
  rw [show (8 : ℚ) = ((8 : ℕ) : ℚ) by norm_num, floatStr_natCast]
  rfl

lemma floatStr_neg_seven : floatStr (-7 : ℚ) = ['-', '7', '.', '0'] := by
  rw [show (-7 : ℚ) = -((7 : ℕ) : ℚ) by norm_num, floatStr_neg_natCast 7 (by norm_num)]
  rfl

/-- C3 counterexample: two semantically distinct requests — one with the
single stop (−7.0, 8.0) and vehicle type `v`, the other with no stops and
vehicle type `7.0:8.0-v` — produce the same key string
`1.0:2.0-3.0:4.0--7.0:8.0-v-c`, so the key function is not injective on
semantic requests. -/
theorem C3_key_collision_counterexample :
    generate_cache_key (1, 2) (3, 4) [(-7, 8)] "v" "c"
      = generate_cache_key (1, 2) (3, 4) [] "7.0:8.0-v" "c"
    ∧ ([((-7 : ℚ), (8 : ℚ))] : List Point) ≠ [] := by
  constructor
  · have h1 : ([((-7 : ℚ), (8 : ℚ))] : List Point) ≠ [] := by simp
    simp only [generate_cache_key, if_neg h1, if_pos rfl, stop_str, joinSep,
      floatStr_one, floatStr_two, floatStr_three, floatStr_four, floatStr_eight,
      floatStr_neg_seven]
    rfl
  · simp

/-- Witness for C3 (amended): two requests differing only in the order of the
stops (1,2),(2,1) have different keys, by the restricted injectivity theorem
instantiated at the coordinate list [1, 2]. -/
theorem C3_cache_key_witness :
    generate_cache_key (1, 1) (1, 1) [(1, 2), (2, 1)] "v" "c"
      ≠ generate_cache_key (1, 1) (1, 1) [(2, 1), (1, 2)] "v" "c" := by
  intro h
  have hiff := C3_cache_key_injective_restricted (1, 1) (1, 1) (1, 1) (1, 1)
    [(1, 2), (2, 1)] [(2, 1), (1, 2)] "v" "v" "c" "c" [1, 2]
    (by
      intro q hq
      simp only [request_coords, List.map_cons, List.map_nil, List.flatten,
        List.mem_append, List.mem_cons, List.not_mem_nil, or_false, List.append_nil] at hq
      rcases hq with h' | h' <;> simp_all <;> tauto)
    (by
      intro q hq
      rcases List.mem_cons.mp hq with rfl | hq'
      · rw [floatStr_one]; decide
      · rcases List.mem_cons.mp hq' with rfl | hq''
        · rw [floatStr_two]; decide
        · exact absurd hq'' (List.not_mem_nil q))
    (by
      intro q hq
      rcases List.mem_cons.mp hq with rfl | hq'
      · rw [floatStr_one]; decide
      · rcases List.mem_cons.mp hq' with rfl | hq''
        · rw [floatStr_two]; decide
        · exact absurd hq'' (List.not_mem_nil q))
    (by
      intro q hq q' hq'
      rcases List.mem_cons.mp hq with rfl | h1
      · rcases List.mem_cons.mp hq' with rfl | h2
        · exact fun _ => rfl
        · rcases List.mem_cons.mp h2 with rfl | h3
          · rw [floatStr_one, floatStr_two]
            intro hx
            exact absurd hx (by decide)
          · exact absurd h3 (List.not_mem_nil q')
      · rcases List.mem_cons.mp h1 with rfl | h2
        · rcases List.mem_cons.mp hq' with rfl | h3
          · rw [floatStr_one, floatStr_two]
            intro hx
            exact absurd hx.symm (by decide)
          · rcases List.mem_cons.mp h3 with rfl | h4
            · exact fun _ => rfl
            · exact absurd h4 (List.not_mem_nil q')
        · exact absurd h2 (List.not_mem_nil q))
    (by decide) (by decide) (by decide) (by decide)
  have hst := (hiff.mp h).2.2.1
  have : ((1 : ℚ), (2 : ℚ)) = ((2 : ℚ), (1 : ℚ)) := by
    exact (List.cons.inj hst).1
  rw [Prod.mk.injEq] at this
  norm_num at this
